import Mathlib

/-!
Verification development for the lightweight RAG subsystem of the
agricultural-advisory backend: the SQLite-backed document/scheme store with
FTS candidate retrieval and TF-IDF re-scoring
(`server/agent/rag/lightweight_vector_store.py`), the query/synthesis
pipeline (`server/agent/rag/lightweight_rag_agent.py`), and the reindex
scheduler (`server/agent/rag/scheduler/auto_reindex.py`).

Modelling conventions:
- Python strings are Lean `String`; character-level operations (lowercasing,
  the regex `\w+`, whitespace `split()`) are modelled for the ASCII range,
  which covers the corpus and all constants in the source.
- Python floats are idealised as real numbers; `math.log` is `Real.log`.
- SQLite tables are Lean lists of row structures.  The `documents` table has
  `id` as PRIMARY KEY, so `INSERT OR REPLACE` replaces the row with the same
  id.  The `documents_fts` table is an FTS5 virtual table: FTS5 tables have
  no PRIMARY KEY or UNIQUE constraint, so `INSERT OR REPLACE` can never hit
  a conflict and behaves as a plain `INSERT` that appends a new row.
- The JSON round trip of the `metadata` column (`json.dumps` on store,
  `json.loads` on read) is modelled as the identity on association lists.
- The bm25 `rank` ordering of FTS5 (`ORDER BY df.rank`) is abstracted as
  table order; no theorem below depends on the relative order of FTS
  candidates.
-/

namespace SchemeRag

/-- ASCII lowercasing of one character, modelling `str.lower()` on the ASCII
range (`A`-`Z` map to `a`-`z`, everything else is fixed). -/
def lowerChar (c : Char) : Char :=
  if 'A' ≤ c && c ≤ 'Z' then Char.ofNat (c.toNat + 32) else c

/-- ASCII model of Python `s.lower()`. -/
def lowerStr (s : String) : String := ⟨s.data.map lowerChar⟩

/-- Characters matched by the regex class `\w` (ASCII range): alphanumerics
and underscore. -/
def isWordChar (c : Char) : Bool := c.isAlphanum || c == '_'

/-- Accumulator pass splitting a character list into maximal runs of
characters satisfying `isWordChar`; models `re.findall(r'\w+', s)`. -/
def wordRunsAux : List Char → List Char → List String
  | [], acc => if acc.isEmpty then [] else [⟨acc.reverse⟩]
  | c :: rest, acc =>
    if isWordChar c then wordRunsAux rest (c :: acc)
    else if acc.isEmpty then wordRunsAux rest []
    else ⟨acc.reverse⟩ :: wordRunsAux rest []

/-- Model of `re.findall(r'\w+', s)`. -/
def findallWordChars (s : String) : List String := wordRunsAux s.data []

/-- Accumulator pass splitting a character list into maximal runs of
non-whitespace characters; models Python `str.split()` with no argument. -/
def wsRunsAux : List Char → List Char → List String
  | [], acc => if acc.isEmpty then [] else [⟨acc.reverse⟩]
  | c :: rest, acc =>
    if c.isWhitespace then
      if acc.isEmpty then wsRunsAux rest []
      else ⟨acc.reverse⟩ :: wsRunsAux rest []
    else wsRunsAux rest (c :: acc)

/-- Model of Python `s.split()` (split on whitespace runs). -/
def pySplit (s : String) : List String := wsRunsAux s.data []

/-- Substring test on character lists: models the Python `pat in s` operator
on strings (true for the empty pattern). -/
def infixOfB (pat : List Char) : List Char → Bool
  | [] => pat.isEmpty
  | c :: rest => List.isPrefixOf pat (c :: rest) || infixOfB pat rest

/-- Python `pat in s` for strings. -/
def strIn (pat s : String) : Bool := infixOfB pat.data s.data

/-- The stop-word set of `LightweightVectorStore._tokenize`. -/
def stopWords : List String :=
  ["the", "is", "at", "which", "on", "a", "an", "and", "or", "but", "in",
   "with", "to", "for", "of"]

/-- `LightweightVectorStore._tokenize`: `\w+` tokens of the lowercased text,
dropping stop words and words of length at most 2. -/
def tokenize (text : String) : List String :=
  (findallWordChars (lowerStr text)).filter
    (fun word => !stopWords.contains word && word.length > 2)

/-- Dictionary lookup with default, modelling `dict.get(k, dflt)` for the
string-valued metadata dictionaries. -/
def metaGet (m : List (String × String)) (k dflt : String) : String :=
  ((m.lookup k).getD dflt)

/-- Dictionary lookup with default, modelling
`self.document_frequencies.get(term, dflt)`. -/
def dfGet (dfs : List (String × Nat)) (t : String) (dflt : Nat) : Nat :=
  ((dfs.lookup t).getD dflt)

/-- `LightweightVectorStore._calculate_tfidf_similarity`: for each query term
present in the document, add `tf * idf` where `tf` is the term count divided
by the document length and `idf = log(total_documents / (df.get(term, 1) + 1))`;
finally divide by the number of query terms (0 if there are none). -/
noncomputable def calculateTfidfSimilarity (dfs : List (String × Nat))
    (totalDocuments : Nat) (queryTerms : List String)
    (documentContent : String) : ℝ :=
  let docTerms := tokenize documentContent
  let score : ℝ := (queryTerms.map (fun term =>
    if docTerms.count term ≠ 0 then
      (if docTerms.isEmpty then (0 : ℝ)
       else (docTerms.count term : ℝ) / (docTerms.length : ℝ)) *
        Real.log ((totalDocuments : ℝ) / ((dfGet dfs term 1 : ℕ) + 1 : ℝ))
    else 0)).sum
  if queryTerms.length ≠ 0 then score / (queryTerms.length : ℝ) else 0

/-- Modelled from the spec: the TF-IDF score as the mean over the query terms
of `tf * idf`, with `idf = log(total_documents / (df + 1))` where the
document frequency of a term absent from the table defaults to `dfltDf`.
The spec states the default is 0; the source uses `.get(term, 1)`, default 1.
This parametric form is compared against `calculateTfidfSimilarity`. -/
noncomputable def tfidfMeanScore (dfltDf : Nat) (dfs : List (String × Nat))
    (totalDocuments : Nat) (queryTerms : List String)
    (documentContent : String) : ℝ :=
  let docTerms := tokenize documentContent
  if queryTerms.isEmpty then 0
  else
    ((queryTerms.map (fun term =>
      (if docTerms.isEmpty then (0 : ℝ)
       else (docTerms.count term : ℝ) / (docTerms.length : ℝ)) *
        Real.log ((totalDocuments : ℝ) /
          ((dfGet dfs term dfltDf : ℕ) + 1 : ℝ)))).sum) /
      (queryTerms.length : ℝ)

/-- `LightweightVectorStore._calculate_text_relevance`: additive heuristic
over the lowercased query (rational idealisation of the float constants
2.0, 1.5, 0.5, 0.3). -/
def calculateTextRelevance (query title description : String) : ℚ :=
  let queryLower := lowerStr query
  let titleLower := lowerStr title
  let descriptionLower := lowerStr description
  let s1 : ℚ := if strIn queryLower titleLower then 2 else 0
  let s2 : ℚ := if strIn queryLower descriptionLower then 3 / 2 else 0
  let wordScores : List ℚ := (pySplit queryLower).map (fun word =>
    (if strIn word titleLower then (1 / 2 : ℚ) else 0) +
    (if strIn word descriptionLower then (3 / 10 : ℚ) else 0))
  s1 + s2 + wordScores.sum

/-- Row of the `documents` table (`id` is PRIMARY KEY); `created_at` is an
abstract timestamp and `metadata` the decoded JSON object. -/
structure DocRow where
  id : String
  title : String
  content : String
  metadata : List (String × String)
  collectionType : String
  createdAt : Nat
deriving DecidableEq

/-- Row of the FTS5 virtual table `documents_fts` (columns id, title,
content; no PRIMARY KEY). -/
structure FtsRow where
  id : String
  title : String
  content : String
deriving DecidableEq

/-- Row of the `schemes` table (`id` is PRIMARY KEY). -/
structure SchemeRow where
  id : String
  name : String
  description : String
  eligibility : List String
  benefits : List String
  subsidyAmount : String
  applicationLinks : List String
  state : String
  category : String
  status : String
  metadata : List (String × String)
  createdAt : Nat
deriving DecidableEq

/-- The persistent state of `LightweightVectorStore`: the three SQLite
tables plus the in-memory TF-IDF cache (`document_frequencies`,
`total_documents`). -/
structure Store where
  documents : List DocRow
  fts : List FtsRow
  schemes : List SchemeRow
  documentFrequencies : List (String × Nat)
  totalDocuments : Nat
deriving DecidableEq

/-- The store right after `_create_tables` on a fresh database. -/
def emptyStore : Store :=
  { documents := [], fts := [], schemes := [],
    documentFrequencies := [], totalDocuments := 0 }

/-- A document dictionary passed to `store_documents`; each field is
optional, mirroring the `doc.get(key, default)` accesses. -/
structure DocIn where
  id : Option String
  title : Option String
  content : Option String
  metadata : Option (List (String × String))
  collectionType : Option String

/-- The id under which a document dictionary is stored:
`doc.get('id', f"doc_{hash(doc.get('content', ''))}")`, with the Python
`hash` function abstracted as a parameter. -/
def docInId (hash : String → String) (d : DocIn) : String :=
  match d.id with
  | some i => i
  | none => "doc_" ++ hash (d.content.getD "")

/-- `INSERT OR REPLACE` into the `documents` table: `id` is the PRIMARY KEY,
so an existing row with the same id is replaced, otherwise the row is
appended. -/
def upsertDoc (rows : List DocRow) (r : DocRow) : List DocRow :=
  if rows.any (fun x => x.id == r.id) then
    rows.map (fun x => if x.id == r.id then r else x)
  else rows ++ [r]

/-- The `document_frequency` table rebuilt by `_update_tfidf_cache`: for each
stored document, every distinct token of its content counts once. -/
def computeDfs (docs : List DocRow) : List (String × Nat) :=
  let allTerms := docs.flatMap (fun d => (tokenize d.content).dedup)
  allTerms.dedup.map (fun t => (t, allTerms.count t))

/-- `LightweightVectorStore._update_tfidf_cache`: recompute
`total_documents` and `document_frequencies` from the `documents` table. -/
def updateTfidfCache (st : Store) : Store :=
  { st with totalDocuments := st.documents.length,
            documentFrequencies := computeDfs st.documents }

/-- One iteration of the `store_documents` loop: upsert into `documents` and
insert into `documents_fts`.  The FTS5 table has no uniqueness constraint, so
the `INSERT OR REPLACE` there appends unconditionally. -/
def storeOneDocument (hash : String → String) (now : Nat) (st : Store)
    (d : DocIn) : Store :=
  let theId := docInId hash d
  let title := d.title.getD ""
  let content := d.content.getD ""
  { st with
      documents := upsertDoc st.documents
        ⟨theId, title, content, d.metadata.getD [],
         d.collectionType.getD "general", now⟩,
      fts := st.fts ++ [⟨theId, title, content⟩] }

/-- `LightweightVectorStore.store_documents`: store every document, commit,
then rebuild the TF-IDF cache. -/
def storeDocuments (hash : String → String) (now : Nat) (st : Store)
    (docs : List DocIn) : Store :=
  updateTfidfCache (docs.foldl (storeOneDocument hash now) st)

/-- `LightweightVectorStore.get_stats`: row counts of `documents` and
`schemes`, as the pair (total_documents, total_schemes). -/
def getStats (st : Store) : Nat × Nat :=
  (st.documents.length, st.schemes.length)

/-- A filter dictionary (`filters` argument of the search operations); a
missing key is `none`. -/
structure Filters where
  state : Option String
  category : Option String
  status : Option String

/-- The equality condition contributed by one filter key: the source adds
`AND field = ?` only when `filters.get(key)` is truthy (present and not the
empty string). -/
def condHolds (fieldVal : String) (flt : Option String) : Bool :=
  match flt with
  | none => true
  | some s => if s == "" then true else fieldVal == s

/-- The `WHERE` clause of `search_schemes`: a substring condition on
name/description when the query is non-empty (SQL `LIKE`, case-insensitive
on ASCII), plus the equality conditions for the truthy filter keys. -/
def schemeMatches (query : String) (f : Option Filters) (r : SchemeRow) :
    Bool :=
  (query == "" || strIn (lowerStr query) (lowerStr r.name) ||
    strIn (lowerStr query) (lowerStr r.description)) &&
  (match f with
   | none => true
   | some fl => condHolds r.state fl.state && condHolds r.category fl.category
       && condHolds r.status fl.status)

/-- The string produced by `_prepare_fts_query`, viewed syntactically: either
an OR-join of quoted terms carrying the `*` wildcard (when at least one
query word is longer than 2 characters) or the raw query string. -/
inductive FtsQuery where
  | orTerms (terms : List String)
  | rawQuery (q : String)

/-- `LightweightVectorStore._prepare_fts_query`: `\w+` words of the
lowercased query, keep those longer than 2 characters as quoted wildcard
terms joined by OR; if none remain, fall back to the raw query string. -/
def prepareFtsQuery (query : String) : FtsQuery :=
  let terms := findallWordChars (lowerStr query)
  let ftsTerms := terms.filter (fun t => t.length > 2)
  if ftsTerms.isEmpty then .rawQuery query else .orTerms ftsTerms

/-- The token stream FTS5 indexes for a row of `documents_fts`: tokens of all
three indexed columns (id, title, content).  The porter stemmer declared by
`tokenize='porter'` is abstracted as the identity on tokens. -/
def ftsRowTokens (r : FtsRow) : List String :=
  findallWordChars (lowerStr r.id) ++ findallWordChars (lowerStr r.title) ++
    findallWordChars (lowerStr r.content)

/-- FTS5 semantics of a `"term"*` disjunction: some indexed token of the row
has one of the terms as a prefix. -/
def matchOrTerms (terms : List String) (r : FtsRow) : Bool :=
  (ftsRowTokens r).any (fun tok =>
    terms.any (fun t => List.isPrefixOf t.data tok.data))

/-- The `JOIN documents d ON d.id = df.id` of `_fts_search`: FTS rows
satisfying the match predicate, each joined to the `documents` row with the
same id. -/
def joinMatching (st : Store) (pred : FtsRow → Bool) : List DocRow :=
  st.fts.filterMap (fun f =>
    if pred f then st.documents.find? (fun d => d.id == f.id) else none)

/-- `LightweightVectorStore._fts_search`.  The `filters` argument is received
but never used by the source code; it is kept here to mirror the signature.
A `MATCH` against an FTS5 query with no token (in particular the empty
string, which `_prepare_fts_query` returns for an empty query) raises an
`fts5: syntax error`, modelled as `Except.error`. -/
def ftsSearch (st : Store) (query : String) (limit : Nat)
    (filters : Option Filters) : Except String (List DocRow) :=
  match prepareFtsQuery query with
  | .orTerms ts => .ok ((joinMatching st (matchOrTerms ts)).take limit)
  | .rawQuery q =>
    let toks := findallWordChars (lowerStr q)
    if toks.isEmpty then .error "fts5: syntax error"
    else
      .ok ((joinMatching st
        (fun r => toks.all (fun t => (ftsRowTokens r).contains t))).take limit)

/-- One element of the list returned by `search_similar`. -/
structure SearchResult where
  content : String
  metadata : List (String × String)
  similarity : ℝ
  title : String
  collection : String

/-- Comparator of the final `results.sort(key=similarity, reverse=True)`:
descending by similarity. -/
def simGe (a b : SearchResult) : Prop := b.similarity ≤ a.similarity

noncomputable instance : DecidableRel simGe := fun a b => Real.decidableLE _ _

instance : IsTotal SearchResult simGe :=
  ⟨fun a b => le_total b.similarity a.similarity⟩

instance : IsTrans SearchResult simGe :=
  ⟨fun _ _ _ h1 h2 => le_trans h2 h1⟩

/-- Body of the `try` block of `search_similar`: FTS candidates (limit
`2 * top_k`), TF-IDF re-scoring of each candidate content against the
tokenized query, stable sort by similarity descending, truncation to
`top_k`. -/
noncomputable def searchSimilarExc (st : Store) (query : String) (topK : Nat)
    (filters : Option Filters) : Except String (List SearchResult) := do
  let ftsResults ← ftsSearch st query (topK * 2) filters
  let queryTerms := tokenize (lowerStr query)
  let results := ftsResults.map (fun d =>
    { content := d.content, metadata := d.metadata,
      similarity := calculateTfidfSimilarity st.documentFrequencies
        st.totalDocuments queryTerms d.content,
      title := d.title, collection := d.collectionType : SearchResult })
  pure ((List.insertionSort simGe results).take topK)

/-- `LightweightVectorStore.search_similar`: the `try` body, with any raised
error caught and converted to the empty list. -/
noncomputable def searchSimilar (st : Store) (query : String) (topK : Nat)
    (filters : Option Filters) : List SearchResult :=
  match searchSimilarExc st query topK filters with
  | .ok r => r
  | .error _ => []

/-- Comparator of the `ORDER BY created_at DESC` of `search_schemes`. -/
def createdGe (a b : SchemeRow) : Prop := b.createdAt ≤ a.createdAt

instance : DecidableRel createdGe := fun a b => Nat.decLe _ _

instance : IsTotal SchemeRow createdGe :=
  ⟨fun a b => le_total b.createdAt a.createdAt⟩

instance : IsTrans SchemeRow createdGe :=
  ⟨fun _ _ _ h1 h2 => le_trans h2 h1⟩

/-- One element of the list returned by `search_schemes`. -/
structure SchemeResult where
  schemeId : String
  name : String
  description : String
  eligibility : List String
  benefits : List String
  subsidyAmount : String
  applicationLinks : List String
  state : String
  category : String
  status : String
  metadata : List (String × String)
  relevanceScore : ℚ
deriving DecidableEq

/-- Comparator of the final `results.sort(key=relevance_score,
reverse=True)` of `search_schemes`. -/
def relGe (a b : SchemeResult) : Prop := b.relevanceScore ≤ a.relevanceScore

instance : DecidableRel relGe := fun a b => Rat.instDecidableLe _ _

instance : IsTotal SchemeResult relGe :=
  ⟨fun a b => le_total b.relevanceScore a.relevanceScore⟩

instance : IsTrans SchemeResult relGe :=
  ⟨fun _ _ _ h1 h2 => le_trans h2 h1⟩

/-- Conversion of a `schemes` row to a result dictionary, with the
relevance score of `_calculate_text_relevance`. -/
def rowToResult (query : String) (r : SchemeRow) : SchemeResult :=
  { schemeId := r.id, name := r.name, description := r.description,
    eligibility := r.eligibility, benefits := r.benefits,
    subsidyAmount := r.subsidyAmount,
    applicationLinks := r.applicationLinks, state := r.state,
    category := r.category, status := r.status, metadata := r.metadata,
    relevanceScore := calculateTextRelevance query r.name r.description }

/-- The candidate rows of `search_schemes`: rows satisfying the `WHERE`
clause, ordered by `created_at` descending, limited to 20. -/
def schemeCandidates (st : Store) (query : String) (f : Option Filters) :
    List SchemeRow :=
  (List.insertionSort createdGe (st.schemes.filter (schemeMatches query f))).take 20

/-- `LightweightVectorStore.search_schemes`: candidates from the SQL query,
converted to result dictionaries, sorted by relevance descending. -/
def searchSchemes (st : Store) (query : String) (f : Option Filters) :
    List SchemeResult :=
  List.insertionSort relGe ((schemeCandidates st query f).map (rowToResult query))

/-- Result of `LightweightRAGAgent._analyze_query`. -/
structure QueryAnalysis where
  farmerType : String
  targetState : Option String
  category : String
  queryIntent : String
deriving DecidableEq

/-- Caller-supplied context of `process_query`; `locationState` models
`context.get('location', {}).get('state')`. -/
structure UserContext where
  farmerType : Option String
  locationState : Option String

/-- Python truthiness of an optional string: present and non-empty. -/
def optTruthy (o : Option String) : Bool :=
  match o with
  | some s => s != ""
  | none => false

/-- The hardcoded state list used for state detection in `_analyze_query`. -/
def indianStates : List String :=
  ["andhra pradesh", "assam", "bihar", "gujarat", "haryana",
   "karnataka", "kerala", "madhya pradesh", "maharashtra",
   "odisha", "punjab", "rajasthan", "tamil nadu", "telangana",
   "uttar pradesh", "west bengal"]

/-- Farmer-type detection from the query text (the `elif` chain of
`_analyze_query`). -/
def detectFarmerType (queryLower : String) : String :=
  if ["small farmer", "marginal farmer"].any (fun t => strIn t queryLower) then
    "small/marginal"
  else if strIn "large farmer" queryLower then "large"
  else "all"

/-- Category detection chain of `_analyze_query`. -/
def detectCategory (queryLower : String) : String :=
  if ["irrigation", "drip", "water", "micro irrigation"].any
      (fun t => strIn t queryLower) then "irrigation"
  else if ["seed", "seeds"].any (fun t => strIn t queryLower) then "seeds"
  else if ["fertilizer", "fertiliser"].any (fun t => strIn t queryLower) then
    "fertilizers"
  else if ["insurance", "crop insurance"].any (fun t => strIn t queryLower) then
    "insurance"
  else if ["subsidy", "subsidies"].any (fun t => strIn t queryLower) then
    "subsidy"
  else "general"

/-- `LightweightRAGAgent._detect_intent`. -/
def detectIntent (queryLower : String) : String :=
  if ["how to apply", "application", "apply"].any (fun t => strIn t queryLower)
    then "application_process"
  else if ["eligibility", "eligible", "qualify"].any
      (fun t => strIn t queryLower) then "eligibility_check"
  else if ["amount", "money", "subsidy", "benefit"].any
      (fun t => strIn t queryLower) then "benefit_inquiry"
  else if ["document", "documents", "papers"].any (fun t => strIn t queryLower)
    then "documentation"
  else "general_inquiry"

/-- `LightweightRAGAgent._analyze_query`: farmer type from context when
truthy else from the query; target state from context when truthy else the
first hardcoded state occurring in the query; category and intent from the
detection chains. -/
def analyzeQuery (query : String) (ctx : Option UserContext) : QueryAnalysis :=
  let queryLower := lowerStr query
  let ctxFarmer := match ctx with
    | some c => c.farmerType
    | none => none
  let ctxState := match ctx with
    | some c => c.locationState
    | none => none
  { farmerType := if optTruthy ctxFarmer then ctxFarmer.getD ""
      else detectFarmerType queryLower,
    targetState := if optTruthy ctxState then ctxState
      else indianStates.find? (fun s => strIn s queryLower),
    category := detectCategory queryLower,
    queryIntent := detectIntent queryLower }

/-- `LightweightRAGAgent._search_documents`: filters from target state and
non-general category, then `search_similar` with `top_k = 10`. -/
noncomputable def agentSearchDocuments (st : Store) (query : String)
    (a : QueryAnalysis) : List SearchResult :=
  let filters : Filters :=
    { state := if optTruthy a.targetState then a.targetState else none,
      category := if a.category != "" && a.category != "general" then
        some a.category else none,
      status := none }
  searchSimilar st query 10 (some filters)

/-- `LightweightRAGAgent._search_schemes`: the same filters as the document
search plus the forced `status = active` filter, then `search_schemes`. -/
def agentSearchSchemes (st : Store) (query : String) (a : QueryAnalysis) :
    List SchemeResult :=
  let filters : Filters :=
    { state := if optTruthy a.targetState then a.targetState else none,
      category := if a.category != "" && a.category != "general" then
        some a.category else none,
      status := some "active" }
  searchSchemes st query (some filters)

/-- One entry of the merged scheme list built by `_synthesize_response`. -/
structure MergedScheme where
  name : String
  description : String
  eligibility : List String
  benefits : List String
  subsidyAmount : String
  applicationLinks : List String
  state : String
  category : String
  status : String
  relevanceScore : ℝ
  dataSource : String

/-- A structured scheme entry of the merged list (`data_source =
structured_schemes`). -/
noncomputable def schemeToMerged (s : SchemeResult) : MergedScheme :=
  { name := s.name, description := s.description,
    eligibility := s.eligibility, benefits := s.benefits,
    subsidyAmount := s.subsidyAmount,
    applicationLinks := s.applicationLinks, state := s.state,
    category := s.category, status := s.status,
    relevanceScore := (s.relevanceScore : ℝ),
    dataSource := "structured_schemes" }

/-- The structured part of the merged list: the first 5 scheme results. -/
noncomputable def structuredPart (schemes : List SchemeResult) :
    List MergedScheme :=
  (schemes.take 5).map schemeToMerged

/-- The description preview of a document entry:
`content[:300] + "..." if len(content) > 300 else content`. -/
def truncDesc (content : String) : String :=
  if content.length > 300 then (⟨content.data.take 300⟩ : String) ++ "..."
  else content

/-- A document entry of the merged list.  The eligibility/benefits/subsidy
extraction helpers (`_extract_from_content`, `_extract_subsidy_amount`) are
regex scrapers whose output no claim inspects; they are abstracted as the
parameters `eList` and `eSub`. -/
noncomputable def docEntry (eList : String → String → List String)
    (eSub : String → String) (d : SearchResult) : MergedScheme :=
  { name := metaGet d.metadata "scheme_name" "Government Scheme",
    description := truncDesc d.content,
    eligibility := eList d.content "eligibility",
    benefits := eList d.content "benefits",
    subsidyAmount := eSub d.content,
    applicationLinks := [metaGet d.metadata "url" ""],
    state := metaGet d.metadata "state" "",
    category := metaGet d.metadata "category" "general",
    status := "active",
    relevanceScore := d.similarity,
    dataSource := "documents" }

/-- The lowercased `scheme_name` of a document result, used for the
duplicate check (`metadata.get('scheme_name', '').lower()`). -/
def docSchemeName (d : SearchResult) : String :=
  lowerStr (metaGet d.metadata "scheme_name" "")

/-- The document loop of `_synthesize_response`: walk the documents, adding
an entry when its scheme name is truthy and not among the names added so
far, and recording the name. -/
noncomputable def addDocs (eList : String → String → List String)
    (eSub : String → String) :
    List SearchResult → List String → List MergedScheme
  | [], _ => []
  | d :: rest, names =>
    let sn := docSchemeName d
    if sn != "" && !names.contains sn then
      docEntry eList eSub d :: addDocs eList eSub rest (names ++ [sn])
    else addDocs eList eSub rest names

/-- The initial contents of `scheme_names_added`: the lowercased names of
the structured entries. -/
noncomputable def structuredNames (schemes : List SchemeResult) :
    List String :=
  (structuredPart schemes).map (fun s => lowerStr s.name)

/-- The full merged list of `_synthesize_response`: first 5 structured
schemes, then entries for the first 5 documents that pass the duplicate
check. -/
noncomputable def mergedSchemes (eList : String → String → List String)
    (eSub : String → String) (documents : List SearchResult)
    (schemes : List SchemeResult) : List MergedScheme :=
  structuredPart schemes ++
    addDocs eList eSub (documents.take 5) (structuredNames schemes)

/-- Python `max` over a list of floats, applied only to non-empty lists by
the source. -/
noncomputable def pyMaxReal : List ℝ → ℝ
  | [] => 0
  | a :: t => t.foldl max a

/-- The confidence computed by `_synthesize_response`:
`min(max_score * 0.9, 1.0)` for a non-empty merged list, else 0.0. -/
noncomputable def synthConfidence (m : List MergedScheme) : ℝ :=
  if m.isEmpty then 0
  else min (pyMaxReal (m.map (fun e => e.relevanceScore)) * (9 / 10)) 1

/-- `LightweightRAGAgent._generate_suggestions`; the fixed list, with the
state tip inserted in front when no target state was found (quote characters
inside the source string literals are omitted here). -/
def genSuggestions (a : QueryAnalysis) : List String :=
  let base :=
    ["Try using more specific terms like PM-KISAN or drip irrigation subsidy",
     "Contact your local agricultural extension office for personalized guidance",
     "Visit the official PM-KISAN website: pmkisan.gov.in"]
  if optTruthy a.targetState then base
  else "Mention your state name for state-specific schemes" :: base

/-- `LightweightRAGAgent._generate_farmer_recommendations`. -/
def genFarmerRecommendations (a : QueryAnalysis) : List String :=
  (if a.farmerType == "small/marginal" then
    ["As a small/marginal farmer, focus on schemes with higher subsidy rates",
     "Consider joining Farmer Producer Organizations (FPOs) for better benefits"]
   else []) ++
  (if a.category == "irrigation" then
    ["Drip irrigation can save 30-50% water and increase yield significantly",
     "Apply for irrigation schemes before the monsoon season"]
   else []) ++
  ["Keep all required documents (Aadhaar, land records, bank details) ready",
   "Visit your nearest Krishi Vigyan Kendra for technical guidance",
   "Apply within the specified deadlines to avoid rejection"]

/-- The response dictionary of `process_query`; absent keys are `none`. -/
structure Response where
  success : Bool
  message : Option String
  error : Option String
  schemes : List MergedScheme
  confidence : Option ℝ
  totalFound : Option Nat
  queryProcessed : Option String
  query : Option String
  suggestions : Option (List String)
  farmerRecommendations : Option (List String)

/-- `LightweightRAGAgent._synthesize_response`: merge, compute the
confidence, and build either the no-results response or the success
response. -/
noncomputable def synthesizeResponse (eList : String → String → List String)
    (eSub : String → String) (query : String)
    (documents : List SearchResult) (schemes : List SchemeResult)
    (a : QueryAnalysis) : Response :=
  let allSchemes := mergedSchemes eList eSub documents schemes
  if allSchemes.isEmpty then
    { success := false,
      message := some "No relevant government schemes found for your query.",
      error := none, schemes := [], confidence := some 0,
      totalFound := none, queryProcessed := none, query := none,
      suggestions := some (genSuggestions a),
      farmerRecommendations := none }
  else
    { success := true,
      message := some ("Found " ++ toString allSchemes.length ++
        " relevant government schemes."),
      error := none, schemes := allSchemes,
      confidence := some (synthConfidence allSchemes),
      totalFound := some allSchemes.length,
      queryProcessed := some query, query := none,
      suggestions := none,
      farmerRecommendations := some (genFarmerRecommendations a) }

/-- The `except` branch of `process_query`: the structured failure response
built from the error string. -/
def processQueryFailure (query e : String) : Response :=
  { success := false, message := none,
    error := some ("Failed to process query: " ++ e),
    schemes := [], confidence := none, totalFound := none,
    queryProcessed := none, query := some query, suggestions := none,
    farmerRecommendations := none }

/-- The handler shape of `process_query`: the value of the `try` body when
it completes, else the structured failure response. -/
def processQueryBoundary (query : String) (r : Except String Response) :
    Response :=
  match r with
  | .ok v => v
  | .error e => processQueryFailure query e

/-- `LightweightRAGAgent.process_query`.  Every operation of the `try` body
is total in this model (the store search methods catch their own errors
internally and return empty lists), so the body always completes and the
boundary handler receives `Except.ok`. -/
noncomputable def processQuery (eList : String → String → List String)
    (eSub : String → String) (st : Store) (query : String)
    (ctx : Option UserContext) : Response :=
  let analysis := analyzeQuery query ctx
  let documents := agentSearchDocuments st query analysis
  let schemes := agentSearchSchemes st query analysis
  processQueryBoundary query
    (.ok (synthesizeResponse eList eSub query documents schemes analysis))

/-- Run state of `AutoReindexScheduler` relevant to the incremental job:
`last_reindex_time`, in seconds (None when no full reindex ever completed). -/
structure SchedState where
  lastReindexTime : Option Int
deriving DecidableEq

/-- Python `timedelta.days` of a difference given in seconds: floor
division by 86400. -/
def timedeltaDays (deltaSeconds : Int) : Int := Int.fdiv deltaSeconds 86400

/-- `AutoReindexScheduler._run_incremental_update`, reduced to its effect on
the run state: skip (False) when `last_reindex_time` is absent or the
elapsed `timedelta.days` exceeds 14, otherwise run (True).  Neither branch
writes `last_reindex_time` or calls `_save_state`. -/
def runIncrementalUpdate (st : SchedState) (now : Int) : SchedState × Bool :=
  match st.lastReindexTime with
  | none => (st, false)
  | some t => if timedeltaDays (now - t) > 14 then (st, false) else (st, true)

/-- Modelled from the spec: a full reindex at time `t` "completed within the
last `d` days" of `now` means it lies in the past and at most `d` days
(`d * 86400` seconds) ago. -/
def withinLastDays (d t now : Int) : Prop :=
  0 ≤ now - t ∧ now - t ≤ d * 86400

/-! Concrete inputs used by the claim evaluations. -/

/-- A stand-in for the Python `hash`-based id fallback; irrelevant here
because every stored document carries an explicit id. -/
def hashStub : String → String := fun _ => "0"

/-- A document about wheat whose metadata places it in Punjab. -/
def punjabDoc : DocIn :=
  { id := some "d1", title := some "t",
    content := some "wheat subsidy info",
    metadata := some [("state", "punjab")], collectionType := none }

/-- A store holding exactly the Punjab wheat document. -/
def punjabStore : Store := storeDocuments hashStub 5 emptyStore [punjabDoc]

/-- The filter map `{state: karnataka}` of the C1 scenario. -/
def karnatakaFilters : Filters :=
  { state := some "karnataka", category := none, status := none }

/-- The Punjab store after storing the same document a second time. -/
def punjabStoreTwice : Store := storeDocuments hashStub 6 punjabStore [punjabDoc]

/-! Claim theorems. -/

/-- C1.  The claim says `_fts_search` filters the FTS candidates by the
metadata equality constraints before TF-IDF re-scoring, so `search_similar`
never returns a result violating them.  The source receives `filters` in
`_fts_search` but never uses it: `search_similar` is independent of its
`filters` argument, and on a store holding one document with metadata state
`punjab`, searching with the filter `{state: karnataka}` returns that
document. -/
theorem c1_search_similar_ignores_filters :
    (∀ st query topK f g,
      searchSimilar st query topK f = searchSimilar st query topK g) ∧
    ((searchSimilar punjabStore "wheat" 10 (some karnatakaFilters)).map
      (fun r => metaGet r.metadata "state" "")) = ["punjab"] :=
  ⟨fun _ _ _ _ _ => rfl, rfl⟩

/-- C2.  Storing the same document (id `d1`) twice: the `documents` table
(PRIMARY KEY id) holds exactly one row and `get_stats` is unchanged by the
second store, but the FTS5 table has no uniqueness constraint, so the
`INSERT OR REPLACE` appends and the full-text index holds two entries for
`d1` — contradicting the one-FTS-entry part of the claim. -/
theorem c2_second_store_duplicates_fts_entry :
    punjabStoreTwice.documents.length = 1 ∧
    (getStats punjabStoreTwice).1 = (getStats punjabStore).1 ∧
    (punjabStoreTwice.fts.filter (fun f => f.id == "d1")).length = 2 := by
  refine ⟨by decide, by decide, by decide⟩

/-- C4 counterexample.  On a store holding one document, `search_similar`
with the empty query returns the empty list (the `MATCH` against the empty
FTS query raises, the exception is caught, and `[]` is returned) — not the
`top_k` most-recently-indexed documents the claim requires. -/
theorem c4_empty_query_returns_nothing :
    searchSimilar punjabStore "" 5 none = [] ∧
    punjabStore.documents.length = 1 :=
  ⟨rfl, by decide⟩

/-- C4 amended.  For every store, `top_k` and filters, an empty query makes
`_prepare_fts_query` fall back to the raw empty string, whose `MATCH` raises
an FTS syntax error; `search_similar` catches it and returns the empty
list.  There is no recency fallback. -/
theorem c4_empty_query_always_empty :
    ∀ (st : Store) (topK : Nat) (f : Option Filters),
      searchSimilar st "" topK f = [] :=
  fun _ _ _ => rfl

/-- C9 amended.  The incremental job never changes the run state (in
particular `last_reindex_time`), and it runs exactly when a last full
reindex time exists whose elapsed `timedelta.days` is at most 14 — that is,
strictly less than 15 whole days, not at most 14 days as the claim words
it.  With `last_reindex_time` absent or 20 days old, it is a no-op. -/
theorem c9_incremental_guard_and_frame :
    ∀ (st : SchedState) (now : Int),
      (runIncrementalUpdate st now).1 = st ∧
      ((runIncrementalUpdate st now).2 = true ↔
        ∃ t, st.lastReindexTime = some t ∧ timedeltaDays (now - t) ≤ 14) := by
  intro st now
  obtain ⟨o⟩ := st
  cases o with
  | none => exact ⟨rfl, by simp [runIncrementalUpdate]⟩
  | some t =>
    by_cases hd : timedeltaDays (now - t) > 14
    · exact ⟨by simp [runIncrementalUpdate, hd], by simp [runIncrementalUpdate, hd]⟩
    · exact ⟨by simp [runIncrementalUpdate, hd], by simp [runIncrementalUpdate, hd]; omega⟩

/-- C9 witness: at 20 days (1728000 seconds) after a full reindex the job
skips and the state is unchanged, instantiating the frame part of the
theorem. -/
theorem c9_incremental_guard_and_frame_witness :
    (runIncrementalUpdate ⟨some 0⟩ 1728000).1 = ⟨some 0⟩ :=
  (c9_incremental_guard_and_frame ⟨some 0⟩ 1728000).1

/-- C9 counterexample.  At 14 days and 1 second after the full reindex the
elapsed interval is not within the last 14 days, but `timedelta.days` is 14,
the guard `days > 14` fails, and the job runs. -/
theorem c9_runs_just_past_fourteen_days :
    (runIncrementalUpdate ⟨some 0⟩ 1209601).2 = true ∧
    ¬ withinLastDays 14 0 1209601 := by
  refine ⟨by decide, ?_⟩
  intro h
  exact absurd h.2 (by decide)

/-- C3 counterexample.  With an empty document-frequency table, 2 total
documents, query term `wheat` and document text `wheat`, the source computes
`idf = ln(2 / (df.get(term, 1) + 1)) = ln(2/2) = 0` and scores 0, while the
claim formula (document frequency defaulting to 0) gives `ln(2/1) = ln 2`,
which is not 0. -/
theorem c3_unseen_term_default_differs :
    calculateTfidfSimilarity [] 2 ["wheat"] "wheat" = 0 ∧
    tfidfMeanScore 0 [] 2 ["wheat"] "wheat" = Real.log 2 ∧
    Real.log 2 ≠ 0 := by
  refine ⟨?_, ?_, (Real.log_pos one_lt_two).ne'⟩
  · have ht : tokenize "wheat" = ["wheat"] := by decide
    simp [calculateTfidfSimilarity, ht, dfGet]
    norm_num
  · have ht : tokenize "wheat" = ["wheat"] := by decide
    simp [tfidfMeanScore, ht, dfGet]

/-- C3 amended.  The TF-IDF score of the source equals the mean over the
query terms of `tf * ln(total_documents / (df + 1))` where the document
frequency of a term missing from the table defaults to 1 (the source reads
`document_frequencies.get(term, 1)`), not 0; `tf` is the term count over the
document length (0 for an empty document) and the score is 0 for an empty
query term list. -/
theorem c3_tfidf_is_mean_with_default_one :
    ∀ (dfs : List (String × Nat)) (totalDocuments : Nat)
      (queryTerms : List String) (content : String),
      calculateTfidfSimilarity dfs totalDocuments queryTerms content =
        tfidfMeanScore 1 dfs totalDocuments queryTerms content := by
  intro dfs N qts c
  unfold calculateTfidfSimilarity tfidfMeanScore
  cases qts with
  | nil => simp
  | cons q rest =>
    simp only [List.isEmpty_cons, List.length_cons, Nat.succ_ne_zero,
      ne_eq, not_false_eq_true, if_true, Bool.false_eq_true, if_false]
    congr 1
    apply congrArg List.sum
    apply List.map_congr_left
    intro t _
    by_cases hc : (tokenize c).count t = 0
    · simp [hc]
    · simp [hc]

/-- Every element of `search_schemes` is the conversion of a table row that
passed the `WHERE` clause. -/
theorem mem_searchSchemes {st : Store} {q : String} {f : Option Filters}
    {r : SchemeResult} (hr : r ∈ searchSchemes st q f) :
    ∃ row ∈ st.schemes.filter (schemeMatches q f), r = rowToResult q row := by
  unfold searchSchemes at hr
  obtain ⟨row, hrow, heq⟩ :=
    List.mem_map.mp ((List.perm_insertionSort relGe _).mem_iff.mp hr)
  have hrow2 : row ∈ List.insertionSort createdGe
      (st.schemes.filter (schemeMatches q f)) :=
    List.mem_of_mem_take hrow
  exact ⟨row, (List.perm_insertionSort createdGe _).mem_iff.mp hrow2, heq.symm⟩

/-- A row passing the `WHERE` clause satisfies all three filter
conditions. -/
theorem schemeMatches_conds {q : String} {fl : Filters} {row : SchemeRow}
    (hm : schemeMatches q (some fl) row = true) :
    condHolds row.state fl.state = true ∧
    condHolds row.category fl.category = true ∧
    condHolds row.status fl.status = true := by
  unfold schemeMatches at hm
  simp only [Bool.and_eq_true] at hm
  exact ⟨hm.2.1.1, hm.2.1.2, hm.2.2⟩

/-- A truthy equality filter that holds forces the field value. -/
theorem condHolds_eq {v : String} {flt : Option String} {s : String}
    (hs : flt = some s) (hne : (s == "") = false)
    (h : condHolds v flt = true) : v = s := by
  subst hs
  simp only [condHolds, hne, Bool.false_eq_true, if_false] at h
  exact eq_of_beq h

/-- A truthy state filter is honored by every returned scheme. -/
theorem searchSchemes_state_eq {st : Store} {q : String} {fl : Filters}
    {s : String} (hs : fl.state = some s) (hne : (s == "") = false) :
    ∀ r ∈ searchSchemes st q (some fl), r.state = s := by
  intro r hr
  obtain ⟨row, hrow, heq⟩ := mem_searchSchemes hr
  have hc := (schemeMatches_conds (List.mem_filter.mp hrow).2).1
  subst heq
  exact condHolds_eq hs hne hc

/-- A truthy status filter is honored by every returned scheme. -/
theorem searchSchemes_status_eq {st : Store} {q : String} {fl : Filters}
    {s : String} (hs : fl.status = some s) (hne : (s == "") = false) :
    ∀ r ∈ searchSchemes st q (some fl), r.status = s := by
  intro r hr
  obtain ⟨row, hrow, heq⟩ := mem_searchSchemes hr
  have hc := (schemeMatches_conds (List.mem_filter.mp hrow).2).2.2
  subst heq
  exact condHolds_eq hs hne hc

/-- The filter map `{state: karnataka, status: active}` of the C6
scenario. -/
def karnatakaActiveFilters : Filters :=
  { state := some "karnataka", category := none, status := some "active" }

/-- C6.  `search_schemes` honors its equality filters: with the filter map
`{state: karnataka, status: active}` every returned scheme has that state
and status, for every store and query; and the agent query pipeline
(`_search_schemes`) always forces `status = active` into the filters, so for
every store, query and analysis every scheme it surfaces has status
`active`. -/
theorem c6_scheme_filters_honored :
    (∀ (st : Store) (q : String),
      (searchSchemes st q (some karnatakaActiveFilters)).all
        (fun r => r.state == "karnataka" && r.status == "active") = true) ∧
    (∀ (st : Store) (q : String) (a : QueryAnalysis),
      (agentSearchSchemes st q a).all
        (fun r => r.status == "active") = true) := by
  constructor
  · intro st q
    rw [List.all_eq_true]
    intro r hr
    have h1 := searchSchemes_state_eq rfl (by decide) r hr
    have h2 := searchSchemes_status_eq rfl (by decide) r hr
    simp [h1, h2]
  · intro st q a
    rw [List.all_eq_true]
    intro r hr
    unfold agentSearchSchemes at hr
    have h2 := searchSchemes_status_eq rfl (by decide) r hr
    simp [h2]

/-- C10.  `search_schemes` returns at most 20 schemes; the result is a
permutation of the converted candidate set; the candidate set is the first
20 entries of the matching rows sorted by `created_at` descending (a
permutation of the matching rows, sorted non-increasingly), and every
candidate is at least as recent as every matching row beyond the 20
selected — relevance sorting only reorders within that recency-selected
set. -/
theorem c10_candidates_are_most_recent :
    ∀ (st : Store) (q : String) (f : Option Filters),
      (searchSchemes st q f).length ≤ 20 ∧
      (searchSchemes st q f).Perm
        ((schemeCandidates st q f).map (rowToResult q)) ∧
      (List.insertionSort createdGe
        (st.schemes.filter (schemeMatches q f))).Perm
        (st.schemes.filter (schemeMatches q f)) ∧
      List.Sorted createdGe
        (List.insertionSort createdGe (st.schemes.filter (schemeMatches q f))) ∧
      ∀ x ∈ schemeCandidates st q f,
        ∀ y ∈ (List.insertionSort createdGe
          (st.schemes.filter (schemeMatches q f))).drop 20,
          y.createdAt ≤ x.createdAt := by
  intro st q f
  refine ⟨?_, List.perm_insertionSort relGe _,
    List.perm_insertionSort createdGe _,
    List.sorted_insertionSort createdGe _, ?_⟩
  · have h1 := (List.perm_insertionSort relGe
      ((schemeCandidates st q f).map (rowToResult q))).length_eq
    unfold searchSchemes
    rw [h1, List.length_map]
    unfold schemeCandidates
    rw [List.length_take]
    exact inf_le_left
  · intro x hx y hy
    have hs : List.Pairwise createdGe
        (List.insertionSort createdGe (st.schemes.filter (schemeMatches q f))) :=
      List.sorted_insertionSort createdGe _
    rw [← List.take_append_drop 20
      (List.insertionSort createdGe (st.schemes.filter (schemeMatches q f)))] at hs
    exact (List.pairwise_append.mp hs).2.2 x hx y hy

/-- A scheme row with only the created-at timestamp (and id) varying, used
to instantiate the C10 theorem on a store with 21 matching rows. -/
def mkSchemeRow (i : Nat) : SchemeRow :=
  { id := toString i, name := "s", description := "", eligibility := [],
    benefits := [], subsidyAmount := "", applicationLinks := [], state := "",
    category := "", status := "active", metadata := [], createdAt := i }

/-- A store whose schemes table has 21 rows with created-at 0..20. -/
def lateStore : Store :=
  { emptyStore with schemes := (List.range 21).map mkSchemeRow }

/-- C10 witness: on the 21-row store, the newest row is among the 20
candidates, the oldest is the one dropped, and the theorem yields the
recency comparison between them. -/
theorem c10_candidates_are_most_recent_witness :
    mkSchemeRow 20 ∈ schemeCandidates lateStore "" none ∧
    mkSchemeRow 0 ∈ (List.insertionSort createdGe
      (lateStore.schemes.filter (schemeMatches "" none))).drop 20 ∧
    (mkSchemeRow 0).createdAt ≤ (mkSchemeRow 20).createdAt :=
  ⟨by decide, by decide,
    (c10_candidates_are_most_recent lateStore "" none).2.2.2.2 _ (by decide)
      _ (by decide)⟩

/-- A list does not contain an element exactly when the element is not a
member. -/
theorem contains_false_iff (ns : List String) (s : String) :
    ns.contains s = false ↔ s ∉ ns := by
  constructor
  · intro h hm
    have hc : ns.contains s = true := List.elem_iff.mpr hm
    rw [hc] at h
    cases h
  · intro h
    cases hcc : ns.contains s with
    | false => rfl
    | true => exact absurd (List.elem_iff.mp hcc) h

/-- The document loop adds at most one entry per document. -/
theorem addDocs_length_le (eL : String → String → List String)
    (eS : String → String) :
    ∀ (l : List SearchResult) (names : List String),
      (addDocs eL eS l names).length ≤ l.length := by
  intro l
  induction l with
  | nil => intro names; simp [addDocs]
  | cons d rest ih =>
    intro names
    unfold addDocs
    by_cases h : (docSchemeName d != "" && !names.contains (docSchemeName d)) = true
    · simp only [h, if_true, List.length_cons]
      exact Nat.succ_le_succ (ih _)
    · simp only [Bool.not_eq_true] at h
      simp only [h, Bool.false_eq_true, if_false]
      exact (ih _).trans (Nat.le_succ _)

/-- When the duplicate-check name of a document is non-empty, the lowercased
name of its merged entry is that very name (the two `metadata.get` defaults
coincide on a present, non-empty key). -/
theorem docEntry_name (eL : String → String → List String)
    (eS : String → String) (d : SearchResult)
    (h : docSchemeName d ≠ "") :
    lowerStr (docEntry eL eS d).name = docSchemeName d := by
  unfold docEntry docSchemeName metaGet
  unfold docSchemeName metaGet at h
  cases hlk : (d.metadata.lookup "scheme_name") with
  | none =>
    rw [hlk] at h
    exact absurd rfl h
  | some v => simp [hlk]

/-- Every entry produced by the document loop comes from a document of the
input whose scheme name is truthy and not among the initial names. -/
theorem addDocs_mem (eL : String → String → List String)
    (eS : String → String) :
    ∀ (l : List SearchResult) (names : List String) (e : MergedScheme),
      e ∈ addDocs eL eS l names →
      ∃ d ∈ l, e = docEntry eL eS d ∧
        docSchemeName d ≠ "" ∧ docSchemeName d ∉ names := by
  intro l
  induction l with
  | nil => intro names e he; simp [addDocs] at he
  | cons d rest ih =>
    intro names e he
    unfold addDocs at he
    by_cases h : (docSchemeName d != "" && !names.contains (docSchemeName d)) = true
    · rw [Bool.and_eq_true] at h
      have h1 : docSchemeName d ≠ "" := by simpa using h.1
      have h2 : docSchemeName d ∉ names := by
        have hb : names.contains (docSchemeName d) = false := by
          simpa using h.2
        exact (contains_false_iff _ _).mp hb
      have hcond : (docSchemeName d != "" && !names.contains (docSchemeName d)) = true := by
        rw [Bool.and_eq_true]; exact h
      simp only [hcond, if_true, List.mem_cons] at he
      rcases he with he | he
      · exact ⟨d, List.mem_cons_self d rest, he, h1, h2⟩
      · obtain ⟨d2, hd2, he2, hne2, hc2⟩ := ih _ e he
        refine ⟨d2, List.mem_cons_of_mem d hd2, he2, hne2, fun hm => hc2 ?_⟩
        exact List.mem_append_left _ hm
    · simp only [Bool.not_eq_true] at h
      simp only [h, Bool.false_eq_true, if_false] at he
      obtain ⟨d2, hd2, he2, hne2, hc2⟩ := ih _ e he
      exact ⟨d2, List.mem_cons_of_mem d hd2, he2, hne2, hc2⟩

/-- The names of the document-loop entries avoid the initial name set and
are pairwise distinct. -/
theorem addDocs_names (eL : String → String → List String)
    (eS : String → String) :
    ∀ (l : List SearchResult) (names : List String),
      (∀ e ∈ addDocs eL eS l names, lowerStr e.name ∉ names) ∧
      ((addDocs eL eS l names).map (fun e => lowerStr e.name)).Nodup := by
  intro l
  induction l with
  | nil => intro names; simp [addDocs]
  | cons d rest ih =>
    intro names
    by_cases h : (docSchemeName d != "" && !names.contains (docSchemeName d)) = true
    · have hsplit := Bool.and_eq_true _ _ ▸ h
      have h1 : docSchemeName d ≠ "" := by simpa using hsplit.1
      have h2 : docSchemeName d ∉ names := by
        have hb : names.contains (docSchemeName d) = false := by
          simpa using hsplit.2
        exact (contains_false_iff _ _).mp hb
      have hstep : addDocs eL eS (d :: rest) names =
          docEntry eL eS d :: addDocs eL eS rest (names ++ [docSchemeName d]) := by
        rw [addDocs.eq_2, if_pos h]
      rw [hstep]
      have hname := docEntry_name eL eS d h1
      constructor
      · intro e he
        rcases List.mem_cons.mp he with he | he
        · rw [he, hname]; exact h2
        · intro hm
          exact ((ih _).1 e he) (List.mem_append_left _ hm)
      · rw [List.map_cons, List.nodup_cons]
        refine ⟨?_, (ih _).2⟩
        intro hm
        obtain ⟨e, he, hev⟩ := List.mem_map.mp hm
        have hni := (ih _).1 e he
        rw [hev, hname] at hni
        exact hni (List.mem_append_right _ (List.mem_singleton_self _))
    · have hstep : addDocs eL eS (d :: rest) names = addDocs eL eS rest names := by
        rw [addDocs.eq_2, if_neg h]
      rw [hstep]
      exact ih names

/-- C7.  Synthesis merges the structured schemes first (at most 5), then
adds at most 5 document entries; each document entry is added only when its
metadata scheme name is absent (case-insensitively) from the structured
names, keeps the 300-character description preview of its document, and the
merged list has at most 10 entries.  Provided the structured names are
themselves distinct, no merged name (lowercased) appears twice — on a name
conflict the structured entry is the one that remains, exactly once. -/
theorem c7_merge_dedup_and_caps :
    ∀ (eL : String → String → List String) (eS : String → String)
      (documents : List SearchResult) (schemes : List SchemeResult),
      (structuredPart schemes).length ≤ 5 ∧
      (addDocs eL eS (documents.take 5) (structuredNames schemes)).length ≤ 5 ∧
      (mergedSchemes eL eS documents schemes).length ≤ 10 ∧
      (∀ e ∈ addDocs eL eS (documents.take 5) (structuredNames schemes),
        e.dataSource = "documents" ∧
        lowerStr e.name ∉ structuredNames schemes ∧
        ∃ d ∈ documents.take 5, e = docEntry eL eS d ∧
          e.description = truncDesc d.content) ∧
      ((structuredNames schemes).Nodup →
        ((mergedSchemes eL eS documents schemes).map
          (fun e => lowerStr e.name)).Nodup) := by
  intro eL eS documents schemes
  have hlen1 : (structuredPart schemes).length ≤ 5 := by
    unfold structuredPart
    rw [List.length_map, List.length_take]
    exact inf_le_left
  have hlen2 : (addDocs eL eS (documents.take 5)
      (structuredNames schemes)).length ≤ 5 := by
    refine (addDocs_length_le eL eS _ _).trans ?_
    rw [List.length_take]
    exact inf_le_left
  refine ⟨hlen1, hlen2, ?_, ?_, ?_⟩
  · unfold mergedSchemes
    rw [List.length_append]
    omega
  · intro e he
    obtain ⟨d, hd, heq, hne, hnin⟩ := addDocs_mem eL eS _ _ e he
    refine ⟨by rw [heq]; rfl, ?_, d, hd, heq, by rw [heq]; rfl⟩
    rw [heq, docEntry_name eL eS d hne]
    exact hnin
  · intro hnd
    unfold mergedSchemes
    rw [List.map_append, List.nodup_append]
    refine ⟨?_, (addDocs_names eL eS _ _).2, ?_⟩
    · unfold structuredNames at hnd
      exact hnd
    · intro a ha hb
      obtain ⟨e, he, hev⟩ := List.mem_map.mp hb
      have hni := (addDocs_names eL eS _ _).1 e he
      rw [← hev] at ha
      exact hni ha

/-- The trivial extraction helpers used to instantiate the agent theorems
on concrete inputs. -/
def eListNil : String → String → List String := fun _ _ => []

/-- Trivial subsidy extraction helper for concrete instantiations. -/
def eSubNil : String → String := fun _ => ""

/-- A structured scheme result named PM-KISAN. -/
def kisanScheme : SchemeResult :=
  { schemeId := "s1", name := "PM-KISAN", description := "income support",
    eligibility := [], benefits := [], subsidyAmount := "",
    applicationLinks := [], state := "", category := "", status := "active",
    metadata := [], relevanceScore := 2 }

/-- Two document results: one whose scheme name collides (case-insensitively)
with PM-KISAN, one fresh. -/
noncomputable def mergeDocs : List SearchResult :=
  [{ content := "c", metadata := [("scheme_name", "pm-kisan")],
     similarity := 0, title := "", collection := "general" },
   { content := "c2", metadata := [("scheme_name", "Other Scheme")],
     similarity := 0, title := "", collection := "general" }]

/-- C7 witness: one structured scheme and two documents (one colliding by
case-insensitive name); the distinctness hypothesis is discharged and the
merged names are distinct. -/
theorem c7_merge_dedup_and_caps_witness :
    (structuredNames [kisanScheme]).Nodup ∧
    ((mergedSchemes eListNil eSubNil mergeDocs [kisanScheme]).map
      (fun e => lowerStr e.name)).Nodup :=
  ⟨by simp [structuredNames, structuredPart, schemeToMerged, kisanScheme],
   (c7_merge_dedup_and_caps eListNil eSubNil mergeDocs [kisanScheme]).2.2.2.2
     (by simp [structuredNames, structuredPart, schemeToMerged, kisanScheme])⟩

/-- Folding `max` from a non-negative seed stays non-negative. -/
theorem foldl_max_nonneg (t : List ℝ) :
    ∀ a : ℝ, 0 ≤ a → 0 ≤ t.foldl max a := by
  induction t with
  | nil => intro a h; simpa using h
  | cons b t ih =>
    intro a h
    exact ih (max a b) (le_trans h (le_max_left a b))

/-- The Python `max` of a list of non-negative reals is non-negative. -/
theorem pyMaxReal_nonneg (l : List ℝ) (h : ∀ x ∈ l, 0 ≤ x) :
    0 ≤ pyMaxReal l := by
  cases l with
  | nil => exact le_refl 0
  | cons a t => exact foldl_max_nonneg t a (h a (List.mem_cons_self a t))

/-- C5 amended.  The synthesized confidence is `min(max_score * 0.9, 1.0)`
for a non-empty merged list and 0.0 for an empty one, hence always at most
1; it is non-negative whenever every merged relevance score is non-negative
(TF-IDF similarities can be negative, so the unconditional lower bound and
the zero-iff-empty equivalence of the claim fail). -/
theorem c5_confidence_formula :
    ∀ (eL : String → String → List String) (eS : String → String)
      (q : String) (documents : List SearchResult)
      (schemes : List SchemeResult) (a : QueryAnalysis),
      (synthesizeResponse eL eS q documents schemes a).confidence =
        some (synthConfidence (mergedSchemes eL eS documents schemes)) ∧
      synthConfidence (mergedSchemes eL eS documents schemes) ≤ 1 ∧
      ((mergedSchemes eL eS documents schemes).isEmpty = true →
        synthConfidence (mergedSchemes eL eS documents schemes) = 0) ∧
      ((mergedSchemes eL eS documents schemes).isEmpty = false →
        synthConfidence (mergedSchemes eL eS documents schemes) =
          min (pyMaxReal ((mergedSchemes eL eS documents schemes).map
            (fun e => e.relevanceScore)) * (9 / 10)) 1) ∧
      ((∀ e ∈ mergedSchemes eL eS documents schemes, 0 ≤ e.relevanceScore) →
        0 ≤ synthConfidence (mergedSchemes eL eS documents schemes)) := by
  intro eL eS q documents schemes a
  refine ⟨?_, ?_, ?_, ?_, ?_⟩
  · unfold synthesizeResponse
    by_cases hm : (mergedSchemes eL eS documents schemes).isEmpty
    · simp only [hm, if_true]
      simp [synthConfidence, hm]
    · simp only [Bool.not_eq_true] at hm
      simp only [hm, Bool.false_eq_true, if_false]
  · unfold synthConfidence
    by_cases hm : (mergedSchemes eL eS documents schemes).isEmpty
    · simp [hm]
    · simp only [Bool.not_eq_true] at hm
      simp only [hm, Bool.false_eq_true, if_false]
      exact min_le_right _ _
  · intro hm; simp [synthConfidence, hm]
  · intro hm; simp [synthConfidence, hm]
  · intro h
    unfold synthConfidence
    by_cases hm : (mergedSchemes eL eS documents schemes).isEmpty
    · simp [hm]
    · simp only [Bool.not_eq_true] at hm
      simp only [hm, Bool.false_eq_true, if_false]
      refine le_min ?_ zero_le_one
      refine mul_nonneg ?_ (by norm_num)
      refine pyMaxReal_nonneg _ ?_
      intro x hx
      obtain ⟨e, he, hev⟩ := List.mem_map.mp hx
      rw [← hev]
      exact h e he

/-- A structured scheme result with a positive relevance score, giving a
non-empty merged list for the C5 witness. -/
def usableScheme : SchemeResult :=
  { schemeId := "s2", name := "Drip Irrigation Subsidy",
    description := "subsidy", eligibility := [], benefits := [],
    subsidyAmount := "", applicationLinks := [], state := "", category := "",
    status := "active", metadata := [], relevanceScore := 2 }

/-- C5 witness: with one structured scheme of relevance 2 the merged list is
non-empty, the non-negativity hypothesis is discharged on its actual
element, and the theorem yields a non-negative confidence. -/
theorem c5_confidence_formula_witness :
    (∀ e ∈ mergedSchemes eListNil eSubNil [] [usableScheme],
      0 ≤ e.relevanceScore) ∧
    0 ≤ synthConfidence (mergedSchemes eListNil eSubNil [] [usableScheme]) := by
  have hyp : ∀ e ∈ mergedSchemes eListNil eSubNil [] [usableScheme],
      0 ≤ e.relevanceScore := by
    intro e he
    simp only [mergedSchemes, structuredPart, structuredNames, addDocs,
      List.take, List.map, List.append_nil] at he
    rw [List.mem_singleton.mp he]
    norm_num [schemeToMerged, usableScheme]
  exact ⟨hyp,
    (c5_confidence_formula eListNil eSubNil "" [] [usableScheme]
      ⟨"all", none, "general", "general_inquiry"⟩).2.2.2.2 hyp⟩

/-- A single stored document whose every token then has document frequency
equal to the corpus size. -/
def negDoc : DocIn :=
  { id := some "d1", title := some "", content := some "wheat",
    metadata := some [("scheme_name", "PM Wheat")], collectionType := none }

/-- The one-document store of the C5 counterexample. -/
def negStore : Store := storeDocuments hashStub 0 emptyStore [negDoc]

/-- A second stored document, making the wheat term frequency 1 out of a
corpus of 2 so that its idf is `ln(2/2) = 0`. -/
def riceDoc : DocIn :=
  { id := some "dr", title := some "", content := some "rice",
    metadata := some [("scheme_name", "PM Rice")], collectionType := none }

/-- The two-document store of the zero-confidence scenario. -/
def zeroStore : Store := storeDocuments hashStub 0 emptyStore [negDoc, riceDoc]

/-- C5 counterexample.  Two reachable pipeline runs refute the claim.  On a
store with a single document `wheat`, querying `wheat` merges one scheme
entry whose relevance is the TF-IDF similarity `1 * ln(1/2) < 0`, so the
response carries a strictly negative confidence on a non-empty merged list —
`0.0 <= confidence` fails.  On a store with the two documents `wheat` and
`rice`, querying `wheat` merges one entry of similarity `1 * ln(2/2) = 0`,
so the confidence is exactly 0.0 on a non-empty merged list — the
`confidence == 0.0 iff merged list empty` equivalence fails too. -/
theorem c5_negative_confidence :
    ((processQuery eListNil eSubNil negStore "wheat" none).schemes.length = 1 ∧
      ((processQuery eListNil eSubNil negStore "wheat" none).confidence.getD 0) < 0) ∧
    ((processQuery eListNil eSubNil zeroStore "wheat" none).schemes.length = 1 ∧
      (processQuery eListNil eSubNil zeroStore "wheat" none).confidence = some 0) := by
  refine ⟨⟨rfl, ?_⟩, rfl, ?_⟩
  · have hconf : (processQuery eListNil eSubNil negStore "wheat" none).confidence =
        some (min (calculateTfidfSimilarity [("wheat", 1)] 1 ["wheat"] "wheat" * (9 / 10)) 1) := rfl
    have hval : calculateTfidfSimilarity [("wheat", 1)] 1 ["wheat"] "wheat" =
        Real.log (1 / 2) := by
      have ht : tokenize "wheat" = ["wheat"] := by decide
      simp [calculateTfidfSimilarity, ht, dfGet]
      norm_num
    rw [hconf, Option.getD_some, hval]
    have hneg : Real.log (1 / 2) < 0 := Real.log_neg (by norm_num) (by norm_num)
    have hmul : Real.log (1 / 2) * (9 / 10) < 0 :=
      mul_neg_of_neg_of_pos hneg (by norm_num)
    exact lt_of_le_of_lt (min_le_left _ _) hmul
  · have hconf : (processQuery eListNil eSubNil zeroStore "wheat" none).confidence =
        some (min (calculateTfidfSimilarity [("wheat", 1), ("rice", 1)] 2
          ["wheat"] "wheat" * (9 / 10)) 1) := rfl
    have hval : calculateTfidfSimilarity [("wheat", 1), ("rice", 1)] 2
        ["wheat"] "wheat" = 0 := by
      have ht : tokenize "wheat" = ["wheat"] := by decide
      simp [calculateTfidfSimilarity, ht, dfGet]
      norm_num
    rw [hconf, hval]
    norm_num

/-- An active scheme row matching any query via the empty-query branch. -/
def activeRow : SchemeRow :=
  { id := "sch1", name := "PM Wheat Support", description := "support",
    eligibility := [], benefits := [], subsidyAmount := "",
    applicationLinks := [], state := "", category := "", status := "active",
    metadata := [], createdAt := 0 }

/-- A store with one active scheme and no documents. -/
def activeStore : Store := { emptyStore with schemes := [activeRow] }

/-- C8 counterexample.  On the empty query the document search raises an FTS
syntax error inside the store (an exception during store access), yet
`process_query` returns success with no error field: the exception is
swallowed by `search_similar`, not converted at the pipeline boundary into
the `Failed to process query:` failure response. -/
theorem c8_store_error_not_surfaced :
    searchSimilarExc activeStore "" 20
      (some { state := none, category := none, status := none }) =
      .error "fts5: syntax error" ∧
    (processQuery eListNil eSubNil activeStore "" none).success = true ∧
    (processQuery eListNil eSubNil activeStore "" none).error = none :=
  ⟨rfl, rfl, rfl⟩

/-- C8 amended.  `process_query` never propagates an exception: every step
of its `try` body is total because the store search methods catch their own
errors and return empty lists, so the boundary handler always receives a
completed response; and the boundary handler itself converts any error
reaching it into the structured failure response carrying the
`Failed to process query:` prefix. -/
theorem c8_total_with_boundary_handler :
    (∀ (eL : String → String → List String) (eS : String → String)
      (st : Store) (q : String) (ctx : Option UserContext),
      processQuery eL eS st q ctx =
        synthesizeResponse eL eS q
          (agentSearchDocuments st q (analyzeQuery q ctx))
          (agentSearchSchemes st q (analyzeQuery q ctx))
          (analyzeQuery q ctx)) ∧
    (∀ (q e : String),
      (processQueryBoundary q (.error e)).error =
        some ("Failed to process query: " ++ e) ∧
      (processQueryBoundary q (.error e)).success = false) :=
  ⟨fun _ _ _ _ _ => rfl, fun _ _ => ⟨rfl, rfl⟩⟩

end SchemeRag
